import Mathlib

/-!
Shallow embedding of the nphysics testbed visualization adapter
(`nphysics_testbed3d/src/engine.rs`): the shape classifier and node
factory (`GraphicsManager::add_shape` and its helpers), the body
registry (`add`, `add_with_color`, `set_color`, `remove`, `clear`,
`body_to_scene_node`), and the data they act on.

Scalars (`f32` in the source) are modelled as rationals; machine-level
floating point is not relevant to the properties proved here, which are
about which values the code computes and passes around, not about
rounding. The `uint` identity key (an `Rc` address in the source) is
modelled as a `Nat` supplied with the body handle. Hash maps are
modelled as association lists with insert-or-replace semantics.
-/

/-- A 3-component vector of rationals, modelling `Vec3<f32>` / `Pnt3<f32>`. -/
structure V3 where
  x : ℚ
  y : ℚ
  z : ℚ
deriving DecidableEq, Repr

def V3.add (a b : V3) : V3 := ⟨a.x + b.x, a.y + b.y, a.z + b.z⟩

def V3.zero : V3 := ⟨0, 0, 0⟩

/-- A 3x3 matrix of rationals (rows), modelling the rotation part of `Iso3<f32>`. -/
structure Mat3 where
  r0 : V3
  r1 : V3
  r2 : V3
deriving DecidableEq, Repr

def Mat3.mulVec (m : Mat3) (v : V3) : V3 :=
  ⟨m.r0.x * v.x + m.r0.y * v.y + m.r0.z * v.z,
   m.r1.x * v.x + m.r1.y * v.y + m.r1.z * v.z,
   m.r2.x * v.x + m.r2.y * v.y + m.r2.z * v.z⟩

def Mat3.mul (a b : Mat3) : Mat3 :=
  ⟨⟨a.r0.x * b.r0.x + a.r0.y * b.r1.x + a.r0.z * b.r2.x,
    a.r0.x * b.r0.y + a.r0.y * b.r1.y + a.r0.z * b.r2.y,
    a.r0.x * b.r0.z + a.r0.y * b.r1.z + a.r0.z * b.r2.z⟩,
   ⟨a.r1.x * b.r0.x + a.r1.y * b.r1.x + a.r1.z * b.r2.x,
    a.r1.x * b.r0.y + a.r1.y * b.r1.y + a.r1.z * b.r2.y,
    a.r1.x * b.r0.z + a.r1.y * b.r1.z + a.r1.z * b.r2.z⟩,
   ⟨a.r2.x * b.r0.x + a.r2.y * b.r1.x + a.r2.z * b.r2.x,
    a.r2.x * b.r0.y + a.r2.y * b.r1.y + a.r2.z * b.r2.y,
    a.r2.x * b.r0.z + a.r2.y * b.r1.z + a.r2.z * b.r2.z⟩⟩

def Mat3.idm : Mat3 := ⟨⟨1, 0, 0⟩, ⟨0, 1, 0⟩, ⟨0, 0, 1⟩⟩

/-- An isometry (rotation + translation), modelling `Iso3<f32>` of `nalgebra`.
Composition `a.mul b` applies `b` first, then `a`, exactly as `a * b` on
`Iso3` does in the source. -/
structure Iso3 where
  rotation : Mat3
  translation : V3
deriving DecidableEq, Repr

def Iso3.mul (a b : Iso3) : Iso3 :=
  ⟨a.rotation.mul b.rotation, (a.rotation.mulVec b.translation).add a.translation⟩

/-- The identity isometry, modelling `na::one()`. -/
def Iso3.one : Iso3 := ⟨Mat3.idm, V3.zero⟩

/-- The shape taxonomy of `ncollide::shape` as dispatched on by
`GraphicsManager::add_shape` (`Plane3`, `Ball3`, `Cuboid3`, `Cylinder3`,
`Cone3`, `Convex3`, `Mesh3`, `BezierSurface3`, `Compound3`).  The closed
`else` branch of the source (an unrecognized `TypeId`) has no inhabitant
here because this sum type is exactly the set of kinds the source tests. -/
inductive Shape where
  | plane (normal : V3)
  | ball (radius : ℚ)
  | cuboid (hx hy hz : ℚ)
  | cylinder (radius halfHeight : ℚ)
  | cone (radius halfHeight : ℚ)
  | convex (points : List V3)
  | mesh (vertices : List V3) (indices : List Nat)
  | bezierSurface (controlPoints : List V3) (nupoints nvpoints : Nat)
  | compound (shapes : List (Iso3 × Shape))

/-- Kind tags, used to compare a produced node against the leaf it came from. -/
inductive ShapeKind where
  | plane
  | ball
  | cuboid
  | cylinder
  | cone
  | convex
  | mesh
  | bezierSurface
  | compound
deriving DecidableEq, Repr

def Shape.kindOf : Shape → ShapeKind
  | .plane _ => .plane
  | .ball _ => .ball
  | .cuboid _ _ _ => .cuboid
  | .cylinder _ _ => .cylinder
  | .cone _ _ => .cone
  | .convex _ => .convex
  | .mesh _ _ => .mesh
  | .bezierSurface _ _ _ => .bezierSurface
  | .compound _ => .compound

/-- The state of a rigid body as read by the adapter: world pose, center of
mass, collision margin, movability, and shape (`nphysics::object::RigidBody`,
at its interface). -/
structure RigidBody where
  position : Iso3
  centerOfMass : V3
  margin : ℚ
  canMove : Bool
  shape : Shape

/-- A shared handle to a rigid body: `Rc<RefCell<RigidBody>>`.  `key` models
the `Rc` allocation address (`body.deref() as *const _ as uint`), the
identity key of the registry; distinct live bodies have distinct addresses. -/
structure BodyHandle where
  key : Nat
  rb : RigidBody

/-- The rendering engine's scene graph at its interface: a supply of fresh
scene-node identifiers and the set of currently registered objects
(`kiss3d::window::Window`). -/
structure Window where
  nextId : Nat
  objects : List Nat
deriving DecidableEq, Repr

/-- Modelled from the spec: each node constructor of `objects/*` (not under
`src/`) "register[s] any created scene-graph objects with the rendering
engine" (spec 4.1); creation allocates one fresh scene object in the window
and hands its identifier to the node. -/
def Window.addObject (w : Window) : Window × Nat :=
  (⟨w.nextId + 1, w.objects ++ [w.nextId]⟩, w.nextId)

/-- `window.remove(scene_node)`: deregisters the object from the scene graph. -/
def Window.removeObj (w : Window) (id : Nat) : Window :=
  ⟨w.nextId, w.objects.filter (fun o => o ≠ id)⟩

/-- The `Node` enum of `engine.rs`.  Each variant records exactly the data the
corresponding constructor call site in `engine.rs` hands to it (body handle
key, accumulated transform where taken, geometric parameters, color) plus the
scene object allocated at creation. -/
inductive Node where
  | ball (bodyKey : Nat) (delta : Iso3) (radius : ℚ) (color : V3) (objectId : Nat)
  | box (bodyKey : Nat) (delta : Iso3) (rx ry rz : ℚ) (color : V3) (objectId : Nat)
  | cylinder (bodyKey : Nat) (delta : Iso3) (r h : ℚ) (color : V3) (objectId : Nat)
  | cone (bodyKey : Nat) (delta : Iso3) (r h : ℚ) (color : V3) (objectId : Nat)
  | mesh (bodyKey : Nat) (delta : Iso3) (vertices : List V3)
      (indices : List (Nat × Nat × Nat)) (color : V3) (objectId : Nat)
  | plane (bodyKey : Nat) (position : V3) (normal : V3) (color : V3) (objectId : Nat)
  | bezierSurface (bodyKey : Nat) (delta : Iso3) (controlPoints : List V3)
      (nupoints nvpoints : Nat) (color : V3) (objectId : Nat)
  | convex (bodyKey : Nat) (delta : Iso3) (hull : List V3) (color : V3) (objectId : Nat)
deriving DecidableEq, Repr

def Node.kind : Node → ShapeKind
  | .ball _ _ _ _ _ => .ball
  | .box _ _ _ _ _ _ _ => .cuboid
  | .cylinder _ _ _ _ _ _ => .cylinder
  | .cone _ _ _ _ _ _ => .cone
  | .mesh _ _ _ _ _ _ => .mesh
  | .plane _ _ _ _ _ => .plane
  | .bezierSurface _ _ _ _ _ _ _ => .bezierSurface
  | .convex _ _ _ _ _ => .convex

def Node.color : Node → V3
  | .ball _ _ _ c _ => c
  | .box _ _ _ _ _ c _ => c
  | .cylinder _ _ _ _ c _ => c
  | .cone _ _ _ _ c _ => c
  | .mesh _ _ _ _ c _ => c
  | .plane _ _ _ c _ => c
  | .bezierSurface _ _ _ _ _ c _ => c
  | .convex _ _ _ c _ => c

def Node.objectId : Node → Nat
  | .ball _ _ _ _ i => i
  | .box _ _ _ _ _ _ i => i
  | .cylinder _ _ _ _ _ i => i
  | .cone _ _ _ _ _ i => i
  | .mesh _ _ _ _ _ i => i
  | .plane _ _ _ _ i => i
  | .bezierSurface _ _ _ _ _ _ i => i
  | .convex _ _ _ _ i => i

/-- Modelled from the spec: `ncollide::procedural::convex_hull3` is an
external collaborator ("A convex-hull leaf computes the hull of the shape's
point set at creation time"); its output is some function of the point set,
uninterpreted here — the identity stands in, and no claim depends on it. -/
def convex_hull3 (points : List V3) : List V3 := points

/-- `slice::chunks(3)` of 2014-era Rust: consecutive chunks of three, the
last chunk shorter when the length is not a multiple of three. -/
def chunks3 : List Nat → List (List Nat)
  | [] => []
  | [a] => [[a]]
  | [a, b] => [[a, b]]
  | a :: b :: c :: rest => [a, b, c] :: chunks3 rest

/-- One iteration of the loop body of `add_mesh`: reads `i[0]`, `i[1]`,
`i[2]` of a chunk (cast `as u32`); a chunk shorter than three makes the
indexing panic, modelled as `none`. -/
def readTri (c : List Nat) : Option (Nat × Nat × Nat) :=
  match c with
  | i0 :: i1 :: i2 :: _ => some (i0 % 4294967296, i1 % 4294967296, i2 % 4294967296)
  | _ => none

/-- The chunk-by-chunk run of the `add_mesh` loop: one triangle per chunk, a
panic anywhere aborting the conversion. -/
def mapTri : List (List Nat) → Option (List (Nat × Nat × Nat))
  | [] => some []
  | ch :: rest =>
      match readTri ch, mapTri rest with
      | some t, some ts => some (t :: ts)
      | _, _ => none

/-- The index-buffer conversion loop of `add_mesh`: every chunk of three is
turned into one triangle triple; a panic anywhere aborts the whole
conversion. -/
def meshTriangles (indices : List Nat) : Option (List (Nat × Nat × Nat)) :=
  mapTri (chunks3 indices)

mutual
/-- `GraphicsManager::add_shape`: classify the shape by kind; leaf kinds push
exactly one node built as the corresponding `add_*` helper of `engine.rs`
builds it; the compound kind recurses over its `(transform, shape)` pairs
with the accumulated transform `delta * t` and pushes nothing itself.
`none` models a panic. -/
def addShape (key : Nat) (rb : RigidBody) (w : Window) (delta : Iso3)
    (s : Shape) (c : V3) : Option (Window × List Node) :=
  match s with
  | .plane nrm =>
      let (w1, oid) := w.addObject
      some (w1, [Node.plane key rb.position.translation
        (rb.position.rotation.mulVec nrm) c oid])
  | .ball r =>
      let (w1, oid) := w.addObject
      some (w1, [Node.ball key delta (r + rb.margin) c oid])
  | .cuboid hx hy hz =>
      let (w1, oid) := w.addObject
      some (w1, [Node.box key delta (hx + rb.margin) (hy + rb.margin)
        (hz + rb.margin) c oid])
  | .convex pts =>
      let (w1, oid) := w.addObject
      some (w1, [Node.convex key delta (convex_hull3 pts) c oid])
  | .cylinder r hh =>
      let (w1, oid) := w.addObject
      some (w1, [Node.cylinder key delta r (hh * 2) c oid])
  | .cone r hh =>
      let (w1, oid) := w.addObject
      some (w1, [Node.cone key delta r (hh * 2) c oid])
  | .bezierSurface cps nu nv =>
      let (w1, oid) := w.addObject
      some (w1, [Node.bezierSurface key delta cps nu nv c oid])
  | .compound shapes => addShapeList key rb w delta shapes c
  | .mesh vs is0 =>
      match meshTriangles is0 with
      | none => none
      | some tris =>
          let (w1, oid) := w.addObject
          some (w1, [Node.mesh key delta vs tris c oid])

/-- The `for &(t, ref s) in c.shapes().iter()` loop of the compound branch. -/
def addShapeList (key : Nat) (rb : RigidBody) (w : Window) (delta : Iso3)
    (ss : List (Iso3 × Shape)) (c : V3) : Option (Window × List Node) :=
  match ss with
  | [] => some (w, [])
  | (t, s) :: rest =>
      match addShape key rb w (delta.mul t) s c with
      | none => none
      | some (w1, ns) =>
          match addShapeList key rb w1 delta rest c with
          | none => none
          | some (w2, ns2) => some (w2, ns ++ ns2)
end

/-- Insert-or-replace on an association list: `HashMap::insert`. -/
def alInsert {α : Type} (k : Nat) (v : α) : List (Nat × α) → List (Nat × α)
  | [] => [(k, v)]
  | (k1, v1) :: rest =>
      if k1 = k then (k, v) :: rest else (k1, v1) :: alInsert k v rest

/-- Lookup on an association list: `HashMap::get`. -/
def alGet {α : Type} (k : Nat) : List (Nat × α) → Option α
  | [] => none
  | (k1, v1) :: rest => if k1 = k then some v1 else alGet k rest

/-- Key removal on an association list: `HashMap::remove`. -/
def alRemove {α : Type} (k : Nat) (l : List (Nat × α)) : List (Nat × α) :=
  l.filter (fun p => p.1 ≠ k)

/-- The `GraphicsManager` state: the deterministic color stream (the
`XorShiftRng` of the source, abstracted to a stream of draws and a
position, its 100-draw warm-up reflected in `new`), the body-to-nodes
registry `rb2sn`, the color cache `rb2color`, and the AABB debug nodes.
The two camera controllers are not modelled; no claim touches them. -/
structure GraphicsManager where
  randStream : Nat → V3
  randPos : Nat
  rb2sn : List (Nat × List Node)
  rb2color : List (Nat × V3)
  aabbs : List Nat

/-- `GraphicsManager::new`: empty maps; the first 100 draws of the color
stream are discarded ("the first colors are boring"). -/
def GraphicsManager.new (stream : Nat → V3) : GraphicsManager :=
  ⟨stream, 100, [], [], []⟩

/-- One draw from the color stream: `self.rand.gen()`. -/
def GraphicsManager.gen (gm : GraphicsManager) : GraphicsManager × V3 :=
  ({ gm with randPos := gm.randPos + 1 }, gm.randStream gm.randPos)

/-- `GraphicsManager::set_color`: writes the color cache only. -/
def GraphicsManager.set_color (gm : GraphicsManager) (key : Nat) (c : V3) :
    GraphicsManager :=
  { gm with rb2color := alInsert key c gm.rb2color }

/-- `GraphicsManager::add_with_color`: classify the body's shape starting
from the identity transform and store the node set under the identity key.
`none` models a panic aborting the operation. -/
def GraphicsManager.add_with_color (gm : GraphicsManager) (w : Window)
    (body : BodyHandle) (c : V3) : Option (GraphicsManager × Window) :=
  match addShape body.key body.rb w Iso3.one body.rb.shape c with
  | none => none
  | some (w1, nodes) =>
      some ({ gm with rb2sn := alInsert body.key nodes gm.rb2sn }, w1)

/-- `GraphicsManager::add`: resolve the color — cached if present, else a
stream draw for a movable body, else gray — then `add_with_color`. -/
def GraphicsManager.add (gm : GraphicsManager) (w : Window)
    (body : BodyHandle) : Option (GraphicsManager × Window) :=
  match alGet body.key gm.rb2color with
  | some c => gm.add_with_color w body c
  | none =>
      if body.rb.canMove then
        let (gm1, c) := gm.gen
        gm1.add_with_color w body c
      else
        gm.add_with_color w body ⟨1/2, 1/2, 1/2⟩

/-- `GraphicsManager::remove`: deregister every scene object of the body's
node set from the window, then erase the registry entry; the color cache is
untouched, and an unregistered body is a no-op. -/
def GraphicsManager.remove (gm : GraphicsManager) (w : Window)
    (body : BodyHandle) : GraphicsManager × Window :=
  let w1 :=
    match alGet body.key gm.rb2sn with
    | some sns => sns.foldl (fun wa n => wa.removeObj n.objectId) w
    | none => w
  ({ gm with rb2sn := alRemove body.key gm.rb2sn }, w1)

/-- `GraphicsManager::clear`: deregister every registered node's scene object
and every AABB node, then clear the registry and the AABB list (the color
cache is untouched). -/
def GraphicsManager.clear (gm : GraphicsManager) (w : Window) :
    GraphicsManager × Window :=
  let w1 := gm.rb2sn.foldl
    (fun wa p => p.2.foldl (fun wb n => wb.removeObj n.objectId) wa) w
  let w2 := gm.aabbs.foldl (fun wa i => wa.removeObj i) w1
  ({ gm with rb2sn := [], aabbs := [] }, w2)

/-- `GraphicsManager::body_to_scene_node`: lookup of a body's node set. -/
def GraphicsManager.body_to_scene_node (gm : GraphicsManager) (key : Nat) :
    Option (List Node) :=
  alGet key gm.rb2sn

mutual
/-- Modelled from the spec (refinement side, for the depth-first-order
claim): the depth-first traversal of a shape tree collecting its leaf
shapes, compounds contributing their children recursively and no leaf of
their own. -/
def specDfsLeaves : Shape → List Shape
  | .compound ss => specDfsLeavesList ss
  | .plane n => [.plane n]
  | .ball r => [.ball r]
  | .cuboid a b c => [.cuboid a b c]
  | .cylinder r h => [.cylinder r h]
  | .cone r h => [.cone r h]
  | .convex p => [.convex p]
  | .mesh v i => [.mesh v i]
  | .bezierSurface p u v => [.bezierSurface p u v]

/-- Children of a compound, visited in order. -/
def specDfsLeavesList : List (Iso3 × Shape) → List Shape
  | [] => []
  | (_, s) :: rest => specDfsLeaves s ++ specDfsLeavesList rest
end

/-- The number of leaf shapes of a shape tree. -/
def Shape.leafCount (s : Shape) : Nat := (specDfsLeaves s).length

mutual
/-- A successful `add_shape` produces nodes whose kinds are exactly the kinds
of the depth-first leaf sequence of the shape, and whose colors are all the
color passed in. -/
def addShape_props (key : Nat) (rb : RigidBody) (w : Window) (delta : Iso3)
    (s : Shape) (c : V3) (w1 : Window) (ns : List Node)
    (h : addShape key rb w delta s c = some (w1, ns)) :
    ns.map Node.kind = (specDfsLeaves s).map Shape.kindOf ∧
      ∀ n ∈ ns, n.color = c :=
  match s, h with
  | .plane nrm, h => by
      simp [addShape, Window.addObject] at h
      obtain ⟨hw, hns⟩ := h
      subst hns
      simp [specDfsLeaves, Shape.kindOf, Node.kind, Node.color]
  | .ball r, h => by
      simp [addShape, Window.addObject] at h
      obtain ⟨hw, hns⟩ := h
      subst hns
      simp [specDfsLeaves, Shape.kindOf, Node.kind, Node.color]
  | .cuboid hx hy hz, h => by
      simp [addShape, Window.addObject] at h
      obtain ⟨hw, hns⟩ := h
      subst hns
      simp [specDfsLeaves, Shape.kindOf, Node.kind, Node.color]
  | .cylinder r hh, h => by
      simp [addShape, Window.addObject] at h
      obtain ⟨hw, hns⟩ := h
      subst hns
      simp [specDfsLeaves, Shape.kindOf, Node.kind, Node.color]
  | .cone r hh, h => by
      simp [addShape, Window.addObject] at h
      obtain ⟨hw, hns⟩ := h
      subst hns
      simp [specDfsLeaves, Shape.kindOf, Node.kind, Node.color]
  | .convex pts, h => by
      simp [addShape, Window.addObject] at h
      obtain ⟨hw, hns⟩ := h
      subst hns
      simp [specDfsLeaves, Shape.kindOf, Node.kind, Node.color]
  | .bezierSurface cps nu nv, h => by
      simp [addShape, Window.addObject] at h
      obtain ⟨hw, hns⟩ := h
      subst hns
      simp [specDfsLeaves, Shape.kindOf, Node.kind, Node.color]
  | .mesh vs is0, h => by
      cases hm : meshTriangles is0 with
      | none => simp [addShape, hm] at h
      | some tris =>
          simp [addShape, hm, Window.addObject] at h
          obtain ⟨hw, hns⟩ := h
          subst hns
          simp [specDfsLeaves, Shape.kindOf, Node.kind, Node.color]
  | .compound ss, h => by
      simp only [addShape] at h
      simpa [specDfsLeaves] using addShapeList_props key rb w delta ss c w1 ns h

/-- The list version of `addShape_props`, for the compound loop. -/
def addShapeList_props (key : Nat) (rb : RigidBody) (w : Window) (delta : Iso3)
    (ss : List (Iso3 × Shape)) (c : V3) (w1 : Window) (ns : List Node)
    (h : addShapeList key rb w delta ss c = some (w1, ns)) :
    ns.map Node.kind = (specDfsLeavesList ss).map Shape.kindOf ∧
      ∀ n ∈ ns, n.color = c :=
  match ss, h with
  | [], h => by
      simp [addShapeList] at h
      obtain ⟨hw, hns⟩ := h
      subst hns
      simp [specDfsLeavesList]
  | (t, s) :: rest, h => by
      simp only [addShapeList] at h
      cases h1 : addShape key rb w (delta.mul t) s c with
      | none => rw [h1] at h; simp at h
      | some p =>
          obtain ⟨wa, nsa⟩ := p
          rw [h1] at h
          dsimp only at h
          cases h2 : addShapeList key rb wa delta rest c with
          | none => rw [h2] at h; simp at h
          | some q =>
              obtain ⟨wb, nsb⟩ := q
              rw [h2] at h
              simp at h
              obtain ⟨hw, hns⟩ := h
              subst hns
              have p1 := addShape_props key rb w (delta.mul t) s c wa nsa h1
              have p2 := addShapeList_props key rb wa delta rest c wb nsb h2
              refine ⟨?_, ?_⟩
              · simp [specDfsLeavesList, p1.1, p2.1]
              · intro n hn
                rcases List.mem_append.mp hn with hmem | hmem
                · exact p1.2 n hmem
                · exact p2.2 n hmem
end

/-- Characterization of the `add_mesh` index-buffer loop: it succeeds exactly
when the index count is a multiple of three, producing one triangle per three
indices; otherwise the trailing short chunk makes it panic. -/
def meshTriangles_spec : (l : List Nat) →
    (3 ∣ l.length →
      ∃ tris, meshTriangles l = some tris ∧ tris.length = l.length / 3) ∧
    (¬ 3 ∣ l.length → meshTriangles l = none)
  | [] => by
      refine ⟨fun _ => ⟨[], rfl, rfl⟩, fun h => absurd ⟨0, rfl⟩ h⟩
  | [a] => by
      refine ⟨fun h => ?_, fun _ => rfl⟩
      simp only [List.length_cons, List.length_nil] at h
      omega
  | [a, b] => by
      refine ⟨fun h => ?_, fun _ => rfl⟩
      simp only [List.length_cons, List.length_nil] at h
      omega
  | a :: b :: c :: rest => by
      have ih := meshTriangles_spec rest
      constructor
      · intro h
        have h3 : 3 ∣ rest.length := by
          simp only [List.length_cons] at h
          omega
        obtain ⟨tris, ht, hl⟩ := ih.1 h3
        simp only [meshTriangles] at ht
        refine ⟨(a % 4294967296, b % 4294967296, c % 4294967296) :: tris, ?_, ?_⟩
        · simp [meshTriangles, chunks3, mapTri, readTri, ht]
        · simp only [List.length_cons, hl]
          omega
      · intro h
        have h3 : ¬ 3 ∣ rest.length := by
          simp only [List.length_cons] at h
          omega
        have ht := ih.2 h3
        simp only [meshTriangles] at ht
        simp [meshTriangles, chunks3, mapTri, readTri, ht]

/-- A fixed color stream for concrete evaluations: every draw is black. -/
def sampleStream : Nat → V3 := fun _ => ⟨0, 0, 0⟩

/-- A freshly constructed registry over the sample stream. -/
def gm0 : GraphicsManager := GraphicsManager.new sampleStream

/-- A fresh window. -/
def w0 : Window := ⟨0, []⟩

/-- A static body with a two-level compound shape: a ball and, one level of
nesting further down, a box. -/
def bodyC2 : BodyHandle :=
  ⟨5, ⟨Iso3.one, V3.zero, 1/10, false,
    Shape.compound [(Iso3.one, Shape.ball 1),
      (Iso3.one, Shape.compound [(Iso3.one, Shape.cuboid 1 1 1)])]⟩⟩

/-- The result of adding `bodyC2` to the fresh registry. -/
def addC2 : Option (GraphicsManager × Window) := gm0.add w0 bodyC2

/-- A static body whose shape is a unit ball. -/
def bodyC5 : BodyHandle := ⟨7, ⟨Iso3.one, V3.zero, 0, false, Shape.ball 1⟩⟩

/-- Adding `bodyC5` after caching red for its key. -/
def addC5a : Option (GraphicsManager × Window) :=
  (gm0.set_color 7 ⟨1, 0, 0⟩).add w0 bodyC5

/-- The registry state after the first add of `bodyC5`. -/
def gm2C5 : GraphicsManager := (addC5a.getD (gm0, w0)).1

/-- The window state after the first add of `bodyC5`. -/
def w2C5 : Window := (addC5a.getD (gm0, w0)).2

/-- Re-adding `bodyC5` after removing it. -/
def addC5b : Option (GraphicsManager × Window) :=
  ((gm2C5.remove w2C5 bodyC5).1).add (gm2C5.remove w2C5 bodyC5).2 bodyC5

/-- A registered node for the clear-empties evaluation. -/
def nodeC6 : Node := Node.ball 5 Iso3.one 1 ⟨0, 0, 0⟩ 0

/-- A registry holding one body with one node whose scene object is `0`. -/
def gmC6 : GraphicsManager := ⟨sampleStream, 100, [(5, [nodeC6])], [], []⟩

/-- A window holding the scene object `0`. -/
def wC6 : Window := ⟨1, [0]⟩

/-- A static box body with no cached color. -/
def bodyC8 : BodyHandle := ⟨9, ⟨Iso3.one, V3.zero, 0, false, Shape.cuboid 1 2 3⟩⟩

/-- The result of adding `bodyC8` to the fresh registry. -/
def addC8 : Option (GraphicsManager × Window) := gm0.add w0 bodyC8

/-- A body that is never registered. -/
def bodyC9 : BodyHandle := ⟨3, ⟨Iso3.one, V3.zero, 0, true, Shape.ball 2⟩⟩

/-- A static ball body for the add-with-color evaluation. -/
def bodyC10 : BodyHandle := ⟨11, ⟨Iso3.one, V3.zero, 0, false, Shape.ball 1⟩⟩

/-- A movable ball body for the add-with-color evaluation. -/
def bodyC10m : BodyHandle := ⟨12, ⟨Iso3.one, V3.zero, 0, true, Shape.ball 1⟩⟩

/-- Adding `bodyC10` with the explicit color blue. -/
def addC10 : Option (GraphicsManager × Window) :=
  gm0.add_with_color w0 bodyC10 ⟨0, 0, 1⟩

/-- Adding `bodyC10m` with the explicit color blue. -/
def addC10m : Option (GraphicsManager × Window) :=
  gm0.add_with_color w0 bodyC10m ⟨0, 0, 1⟩

/-- A later plain `add` of `bodyC10`, after the explicit-color add. -/
def addC10b : Option (GraphicsManager × Window) :=
  (addC10.getD (gm0, w0)).1.add (addC10.getD (gm0, w0)).2 bodyC10

/-- A later plain `add` of `bodyC10m`, after the explicit-color add. -/
def addC10mb : Option (GraphicsManager × Window) :=
  (addC10m.getD (gm0, w0)).1.add (addC10m.getD (gm0, w0)).2 bodyC10m

theorem alGet_alInsert {α : Type} (k : Nat) (v : α) (l : List (Nat × α)) :
    alGet k (alInsert k v l) = some v := by
  induction l with
  | nil => simp [alInsert, alGet]
  | cons p rest ih =>
      obtain ⟨k1, v1⟩ := p
      by_cases hk : k1 = k
      · simp [alInsert, hk, alGet]
      · simp [alInsert, hk, alGet, ih]

theorem alRemove_of_alGet_none {α : Type} (k : Nat) (l : List (Nat × α))
    (h : alGet k l = none) : alRemove k l = l := by
  induction l with
  | nil => rfl
  | cons p rest ih =>
      obtain ⟨k1, v1⟩ := p
      by_cases hk : k1 = k
      · simp [alGet, hk] at h
      · simp only [alGet, hk, if_false] at h
        simp [alRemove, List.filter_cons, hk] at ih ⊢
        exact ih h

theorem alGet_mem {α : Type} (k : Nat) (v : α) (l : List (Nat × α))
    (h : alGet k l = some v) : (k, v) ∈ l := by
  induction l with
  | nil => simp [alGet] at h
  | cons p rest ih =>
      obtain ⟨k1, v1⟩ := p
      by_cases hk : k1 = k
      · simp [alGet, hk] at h
        subst hk
        subst h
        exact List.mem_cons_self _ _
      · simp only [alGet, hk, if_false] at h
        exact List.mem_cons_of_mem _ (ih h)

theorem alGet_alRemove {α : Type} (k : Nat) (l : List (Nat × α)) :
    alGet k (alRemove k l) = none := by
  induction l with
  | nil => rfl
  | cons p rest ih =>
      obtain ⟨k1, v1⟩ := p
      by_cases hk : k1 = k
      · simpa [alRemove, List.filter_cons, hk] using ih
      · simpa [alRemove, List.filter_cons, hk, alGet] using ih

theorem Mat3.idm_mul (m : Mat3) : Mat3.idm.mul m = m := by
  obtain ⟨⟨a, b, c⟩, ⟨d, e, f⟩, ⟨g, h, i⟩⟩ := m
  simp [Mat3.mul, Mat3.idm]

theorem Mat3.idm_mulVec (v : V3) : Mat3.idm.mulVec v = v := by
  obtain ⟨a, b, c⟩ := v
  simp [Mat3.mulVec, Mat3.idm]

theorem V3.add_zeroV (v : V3) : v.add V3.zero = v := by
  obtain ⟨a, b, c⟩ := v
  simp [V3.add, V3.zero]

theorem Iso3.one_mul (t : Iso3) : Iso3.one.mul t = t := by
  obtain ⟨r, tr⟩ := t
  simp [Iso3.mul, Iso3.one, Mat3.idm_mul, Mat3.idm_mulVec, V3.add_zeroV]

theorem removeObj_not_mem (w : Window) (id : Nat) :
    id ∉ (w.removeObj id).objects := by
  simp [Window.removeObj]

theorem removeObj_preserve_not_mem (w : Window) (id j : Nat)
    (h : id ∉ w.objects) : id ∉ (w.removeObj j).objects := by
  intro hc
  have hc2 : id ∈ w.objects.filter (fun o => o ≠ j) := hc
  exact h (List.mem_filter.mp hc2).1

theorem foldl_removeObj_preserve (l : List Nat) (w : Window) (id : Nat)
    (h : id ∉ w.objects) : id ∉ (l.foldl Window.removeObj w).objects := by
  induction l generalizing w with
  | nil => exact h
  | cons a rest ih => exact ih _ (removeObj_preserve_not_mem w id a h)

theorem foldl_removeObj_mem : ∀ (l : List Nat) (w : Window) (id : Nat),
    id ∈ l → id ∉ (l.foldl Window.removeObj w).objects := by
  intro l
  induction l with
  | nil => intro w id h; cases h
  | cons a rest ih =>
      intro w id h
      rcases List.mem_cons.mp h with heq | hmem
      · subst heq
        exact foldl_removeObj_preserve rest _ id (removeObj_not_mem w id)
      · exact ih _ _ hmem

theorem clear_fold_eq (entries : List (Nat × List Node)) (w : Window) :
    entries.foldl
        (fun wa p => p.2.foldl (fun wb n => wb.removeObj n.objectId) wa) w =
      ((entries.map (fun p => p.2.map Node.objectId)).flatten).foldl
        Window.removeObj w := by
  induction entries generalizing w with
  | nil => rfl
  | cons p rest ih =>
      simp only [List.foldl_cons, List.map_cons, List.flatten_cons,
        List.foldl_append, List.foldl_map]
      exact ih _

theorem add_with_color_some (gm : GraphicsManager) (w : Window)
    (body : BodyHandle) (c : V3) (gm1 : GraphicsManager) (w1 : Window)
    (h : gm.add_with_color w body c = some (gm1, w1)) :
    ∃ ns, addShape body.key body.rb w Iso3.one body.rb.shape c = some (w1, ns) ∧
      gm1.rb2sn = alInsert body.key ns gm.rb2sn ∧
      gm1.rb2color = gm.rb2color ∧ gm1.randStream = gm.randStream ∧
      gm1.randPos = gm.randPos ∧ gm1.aabbs = gm.aabbs := by
  unfold GraphicsManager.add_with_color at h
  cases hs : addShape body.key body.rb w Iso3.one body.rb.shape c with
  | none => rw [hs] at h; simp at h
  | some p =>
      obtain ⟨wa, ns⟩ := p
      rw [hs] at h
      dsimp only at h
      simp at h
      obtain ⟨hgm, hw⟩ := h
      subst hgm
      subst hw
      exact ⟨ns, rfl, rfl, rfl, rfl, rfl, rfl⟩

theorem add_eq_cached (gm : GraphicsManager) (w : Window) (body : BodyHandle)
    (c : V3) (hc : alGet body.key gm.rb2color = some c) :
    gm.add w body = gm.add_with_color w body c := by
  unfold GraphicsManager.add
  rw [hc]

theorem add_eq_static (gm : GraphicsManager) (w : Window) (body : BodyHandle)
    (hc : alGet body.key gm.rb2color = none)
    (hm : body.rb.canMove = false) :
    gm.add w body = gm.add_with_color w body ⟨1/2, 1/2, 1/2⟩ := by
  unfold GraphicsManager.add
  rw [hc]
  dsimp only
  rw [hm]
  rfl

theorem add_eq_movable (gm : GraphicsManager) (w : Window) (body : BodyHandle)
    (hc : alGet body.key gm.rb2color = none)
    (hm : body.rb.canMove = true) :
    gm.add w body =
      ({ gm with randPos := gm.randPos + 1 }).add_with_color w body
        (gm.randStream gm.randPos) := by
  unfold GraphicsManager.add
  rw [hc]
  dsimp only
  rw [hm]
  rfl

theorem add_some (gm : GraphicsManager) (w : Window) (body : BodyHandle)
    (gm1 : GraphicsManager) (w1 : Window)
    (h : gm.add w body = some (gm1, w1)) :
    ∃ c ns, addShape body.key body.rb w Iso3.one body.rb.shape c = some (w1, ns) ∧
      gm1.rb2sn = alInsert body.key ns gm.rb2sn ∧
      gm1.rb2color = gm.rb2color := by
  cases hc : alGet body.key gm.rb2color with
  | some c =>
      rw [add_eq_cached gm w body c hc] at h
      obtain ⟨ns, hs, h1, h2, _, _, _⟩ := add_with_color_some _ _ _ _ _ _ h
      exact ⟨c, ns, hs, h1, h2⟩
  | none =>
      cases hm : body.rb.canMove with
      | true =>
          rw [add_eq_movable gm w body hc hm] at h
          obtain ⟨ns, hs, h1, h2, _, _, _⟩ := add_with_color_some _ _ _ _ _ _ h
          exact ⟨gm.randStream gm.randPos, ns, hs, h1, h2⟩
      | false =>
          rw [add_eq_static gm w body hc hm] at h
          obtain ⟨ns, hs, h1, h2, _, _, _⟩ := add_with_color_some _ _ _ _ _ _ h
          exact ⟨⟨1/2, 1/2, 1/2⟩, ns, hs, h1, h2⟩

theorem add_static_gray (gm : GraphicsManager) (w : Window) (body : BodyHandle)
    (gm1 : GraphicsManager) (w1 : Window)
    (hc : alGet body.key gm.rb2color = none)
    (hm : body.rb.canMove = false)
    (h : gm.add w body = some (gm1, w1)) :
    ∃ ns, gm1.body_to_scene_node body.key = some ns ∧
      ∀ n ∈ ns, n.color = ⟨1/2, 1/2, 1/2⟩ := by
  rw [add_eq_static gm w body hc hm] at h
  obtain ⟨ns, hs, h1, _, _, _, _⟩ := add_with_color_some _ _ _ _ _ _ h
  refine ⟨ns, ?_, (addShape_props _ _ _ _ _ _ _ _ hs).2⟩
  unfold GraphicsManager.body_to_scene_node
  rw [h1, alGet_alInsert]

theorem add_movable_draw (gm : GraphicsManager) (w : Window) (body : BodyHandle)
    (gm1 : GraphicsManager) (w1 : Window)
    (hc : alGet body.key gm.rb2color = none)
    (hm : body.rb.canMove = true)
    (h : gm.add w body = some (gm1, w1)) :
    ∃ ns, gm1.body_to_scene_node body.key = some ns ∧
      ∀ n ∈ ns, n.color = gm.randStream gm.randPos := by
  rw [add_eq_movable gm w body hc hm] at h
  obtain ⟨ns, hs, h1, _, _, _, _⟩ := add_with_color_some _ _ _ _ _ _ h
  refine ⟨ns, ?_, (addShape_props _ _ _ _ _ _ _ _ hs).2⟩
  unfold GraphicsManager.body_to_scene_node
  rw [h1, alGet_alInsert]

/-- Claim C1, counterexample: the claim says an index buffer of length 10
silently yields exactly 3 triangles; in fact the trailing one-element chunk
produced by `chunks(3)` makes `i[1]` panic, so node creation for such a mesh
fails (`none`) and produces no triangles at all. -/
theorem C1_mesh_length10_counterexample :
    addShape 0 ⟨Iso3.one, V3.zero, 0, false, Shape.ball 0⟩ w0 Iso3.one
        (Shape.mesh [] [0, 1, 2, 3, 4, 5, 6, 7, 8, 9]) ⟨0, 0, 0⟩ = none ∧
      ([0, 1, 2, 3, 4, 5, 6, 7, 8, 9] : List Nat).length = 10 :=
  ⟨rfl, rfl⟩

/-- Claim C1, amended: a triangle-mesh index buffer whose length is a
multiple of three yields exactly length/3 triangles; a length that is not a
multiple of three is not truncated but makes node creation panic on the
trailing short chunk (out-of-bounds chunk indexing), so a length-10 buffer
produces a failure, not 3 triangles. -/
theorem C1_mesh_truncation_amended (key : Nat) (rb : RigidBody) (w : Window)
    (delta : Iso3) (vs : List V3) (indices : List Nat) (c : V3) :
    (3 ∣ indices.length →
      ∃ tris, meshTriangles indices = some tris ∧
        tris.length = indices.length / 3 ∧
        addShape key rb w delta (Shape.mesh vs indices) c =
          some (w.addObject.1, [Node.mesh key delta vs tris c w.addObject.2])) ∧
    (¬ 3 ∣ indices.length →
      addShape key rb w delta (Shape.mesh vs indices) c = none) := by
  constructor
  · intro h
    obtain ⟨tris, ht, hl⟩ := (meshTriangles_spec indices).1 h
    refine ⟨tris, ht, hl, ?_⟩
    simp [addShape, ht, Window.addObject]
  · intro h
    have ht := (meshTriangles_spec indices).2 h
    simp [addShape, ht]

/-- Concrete evaluation of the amended C1: six indices give two triangles,
five indices give a panic. -/
theorem C1_mesh_truncation_witness :
    (∃ tris, meshTriangles [0, 1, 2, 3, 4, 5] = some tris ∧
        tris.length = ([0, 1, 2, 3, 4, 5] : List Nat).length / 3 ∧
        addShape 0 bodyC9.rb w0 Iso3.one
            (Shape.mesh [] [0, 1, 2, 3, 4, 5]) ⟨0, 0, 0⟩ =
          some (w0.addObject.1,
            [Node.mesh 0 Iso3.one [] tris ⟨0, 0, 0⟩ w0.addObject.2])) ∧
    addShape 0 bodyC9.rb w0 Iso3.one
        (Shape.mesh [] [0, 1, 2, 3, 4]) ⟨0, 0, 0⟩ = none :=
  ⟨(C1_mesh_truncation_amended 0 bodyC9.rb w0 Iso3.one [] [0, 1, 2, 3, 4, 5]
      ⟨0, 0, 0⟩).1 (by decide),
   (C1_mesh_truncation_amended 0 bodyC9.rb w0 Iso3.one [] [0, 1, 2, 3, 4]
      ⟨0, 0, 0⟩).2 (by decide)⟩

/-- Claim C2: a successful `add(body)` stores under the body's identity key a
node set with exactly one node per leaf of the shape tree (compounds counted
through, not counted themselves), in depth-first traversal order — the node
kinds read off in order are exactly the kinds of the depth-first leaf
sequence. -/
theorem C2_leaf_count_dfs (gm : GraphicsManager) (w : Window)
    (body : BodyHandle) (gm1 : GraphicsManager) (w1 : Window)
    (h : gm.add w body = some (gm1, w1)) :
    ∃ ns, gm1.body_to_scene_node body.key = some ns ∧
      ns.length = body.rb.shape.leafCount ∧
      ns.map Node.kind = (specDfsLeaves body.rb.shape).map Shape.kindOf := by
  obtain ⟨c, ns, hs, h1, _⟩ := add_some gm w body gm1 w1 h
  have props := addShape_props _ _ _ _ _ _ _ _ hs
  refine ⟨ns, ?_, ?_, props.1⟩
  · unfold GraphicsManager.body_to_scene_node
    rw [h1, alGet_alInsert]
  · have hlen := congrArg List.length props.1
    simpa [Shape.leafCount] using hlen

/-- Concrete evaluation of C2: a two-level compound with a ball and a nested
box yields exactly the two leaves in depth-first order. -/
theorem C2_leaf_count_dfs_witness :
    ∃ ns, (addC2.getD (gm0, w0)).1.body_to_scene_node 5 = some ns ∧
      ns.length = bodyC2.rb.shape.leafCount ∧
      ns.map Node.kind = (specDfsLeaves bodyC2.rb.shape).map Shape.kindOf :=
  C2_leaf_count_dfs gm0 w0 bodyC2 (addC2.getD (gm0, w0)).1
    (addC2.getD (gm0, w0)).2 rfl

/-- Claim C3: the compound branch recurses over each pair with the transform
composed as accumulated-then-local and creates no node of its own; in
particular a ball offset by T inside a compound itself offset by T2 (starting
from the identity accumulated transform of `add`) yields exactly one node
whose accumulated transform is T2 composed with T. -/
theorem C3_compound_transform_composition :
    (∀ (key : Nat) (rb : RigidBody) (w : Window) (delta : Iso3)
        (ss : List (Iso3 × Shape)) (c : V3),
      addShape key rb w delta (Shape.compound ss) c =
        addShapeList key rb w delta ss c) ∧
    (∀ (key : Nat) (rb : RigidBody) (w : Window) (T T2 : Iso3) (r : ℚ) (c : V3),
      addShape key rb w Iso3.one
          (Shape.compound [(T2, Shape.compound [(T, Shape.ball r)])]) c =
        some (w.addObject.1,
          [Node.ball key (T2.mul T) (r + rb.margin) c w.addObject.2])) := by
  constructor
  · intro key rb w delta ss c
    rfl
  · intro key rb w T T2 r c
    have e : addShape key rb w Iso3.one
        (Shape.compound [(T2, Shape.compound [(T, Shape.ball r)])]) c =
        some (w.addObject.1,
          [Node.ball key ((Iso3.one.mul T2).mul T) (r + rb.margin) c
            w.addObject.2]) := rfl
    rw [e, Iso3.one_mul]

/-- Claim C4: a ball leaf of radius r on a body with margin m hands the
renderer radius exactly r + m, and a box leaf with half-extents (hx, hy, hz)
is created with half-extents exactly (hx+m, hy+m, hz+m). -/
theorem C4_margin_inflation (key : Nat) (rb : RigidBody) (w : Window)
    (delta : Iso3) (r hx hy hz : ℚ) (c : V3) :
    addShape key rb w delta (Shape.ball r) c =
      some (w.addObject.1,
        [Node.ball key delta (r + rb.margin) c w.addObject.2]) ∧
    addShape key rb w delta (Shape.cuboid hx hy hz) c =
      some (w.addObject.1,
        [Node.box key delta (hx + rb.margin) (hy + rb.margin)
          (hz + rb.margin) c w.addObject.2]) :=
  ⟨rfl, rfl⟩

/-- Claim C5: after `set_color(b, C)`, an `add(b)` colors every stored node
C; the subsequent `remove(b)` deletes b's registry entry (the lookup is
absent afterwards) but leaves the color cache untouched; and a second
`add(b)` with no explicit color again colors every stored node C. -/
theorem C5_color_persistence (gm : GraphicsManager) (w : Window)
    (body : BodyHandle) (C : V3) (gm2 gm4 : GraphicsManager) (w2 w4 : Window)
    (h1 : (gm.set_color body.key C).add w body = some (gm2, w2))
    (h2 : ((gm2.remove w2 body).1).add (gm2.remove w2 body).2 body =
      some (gm4, w4)) :
    (∃ ns, gm2.body_to_scene_node body.key = some ns ∧
      ∀ n ∈ ns, n.color = C) ∧
    (gm2.remove w2 body).1.body_to_scene_node body.key = none ∧
    (gm2.remove w2 body).1.rb2color = gm2.rb2color ∧
    (∃ ns, gm4.body_to_scene_node body.key = some ns ∧
      ∀ n ∈ ns, n.color = C) := by
  have hc1 : alGet body.key (gm.set_color body.key C).rb2color = some C :=
    alGet_alInsert body.key C gm.rb2color
  rw [add_eq_cached _ _ _ _ hc1] at h1
  obtain ⟨ns, hs, hsn, hcol, _, _, _⟩ := add_with_color_some _ _ _ _ _ _ h1
  have props := addShape_props _ _ _ _ _ _ _ _ hs
  refine ⟨⟨ns, ?_, props.2⟩, alGet_alRemove body.key gm2.rb2sn, rfl, ?_⟩
  · unfold GraphicsManager.body_to_scene_node
    rw [hsn, alGet_alInsert]
  · have hc3 : alGet body.key ((gm2.remove w2 body).1).rb2color = some C := by
      have e : ((gm2.remove w2 body).1).rb2color = gm2.rb2color := rfl
      rw [e, hcol]
      exact alGet_alInsert body.key C gm.rb2color
    rw [add_eq_cached _ _ _ _ hc3] at h2
    obtain ⟨ns4, hs4, hsn4, _, _, _, _⟩ := add_with_color_some _ _ _ _ _ _ h2
    have props4 := addShape_props _ _ _ _ _ _ _ _ hs4
    refine ⟨ns4, ?_, props4.2⟩
    unfold GraphicsManager.body_to_scene_node
    rw [hsn4, alGet_alInsert]

/-- Concrete evaluation of C5 on a static ball body colored red. -/
theorem C5_color_persistence_witness :
    (∃ ns, gm2C5.body_to_scene_node 7 = some ns ∧
      ∀ n ∈ ns, n.color = ⟨1, 0, 0⟩) ∧
    (gm2C5.remove w2C5 bodyC5).1.body_to_scene_node 7 = none ∧
    (gm2C5.remove w2C5 bodyC5).1.rb2color = gm2C5.rb2color ∧
    (∃ ns, (addC5b.getD (gm0, w0)).1.body_to_scene_node 7 = some ns ∧
      ∀ n ∈ ns, n.color = ⟨1, 0, 0⟩) :=
  C5_color_persistence gm0 w0 bodyC5 ⟨1, 0, 0⟩ gm2C5 (addC5b.getD (gm0, w0)).1
    w2C5 (addC5b.getD (gm0, w0)).2 rfl rfl

/-- Claim C6: after `clear()`, lookup is absent for every key, and no scene
object of any previously registered node (nor any AABB debug object) remains
registered in the window. -/
theorem C6_clear_empties (gm : GraphicsManager) (w : Window) :
    (∀ key, (gm.clear w).1.body_to_scene_node key = none) ∧
    (∀ key ns, alGet key gm.rb2sn = some ns →
      ∀ n ∈ ns, n.objectId ∉ (gm.clear w).2.objects) ∧
    (∀ id ∈ gm.aabbs, id ∉ (gm.clear w).2.objects) := by
  have e2 : (gm.clear w).2 = gm.aabbs.foldl Window.removeObj
      (((gm.rb2sn.map (fun p => p.2.map Node.objectId)).flatten).foldl
        Window.removeObj w) := by
    show gm.aabbs.foldl (fun wa i => wa.removeObj i)
        (gm.rb2sn.foldl
          (fun wa p => p.2.foldl (fun wb n => wb.removeObj n.objectId) wa) w) =
      _
    rw [clear_fold_eq]
  refine ⟨fun key => rfl, fun key ns hget n hn => ?_, fun id hid => ?_⟩
  · have hflat : n.objectId ∈
        (gm.rb2sn.map (fun p => p.2.map Node.objectId)).flatten :=
      List.mem_flatten.mpr ⟨ns.map Node.objectId,
        List.mem_map.mpr ⟨(key, ns), alGet_mem _ _ _ hget, rfl⟩,
        List.mem_map.mpr ⟨n, hn, rfl⟩⟩
    rw [e2]
    exact foldl_removeObj_preserve _ _ _ (foldl_removeObj_mem _ _ _ hflat)
  · rw [e2]
    exact foldl_removeObj_mem _ _ _ hid

/-- Concrete evaluation of C6: a registry holding one ball node whose scene
object is in the window; after clear, the lookup is absent and the object is
gone. -/
theorem C6_clear_empties_witness :
    (gmC6.clear wC6).1.body_to_scene_node 5 = none ∧
      nodeC6.objectId ∉ (gmC6.clear wC6).2.objects :=
  ⟨(C6_clear_empties gmC6 wC6).1 5,
   (C6_clear_empties gmC6 wC6).2.1 5 [nodeC6] rfl nodeC6
     (List.mem_singleton.mpr rfl)⟩

/-- Claim C7: a plane leaf ignores the accumulated transform entirely — the
produced node is the same for any two accumulated transforms — and derives
its rendered position and normal from the body's current world pose composed
with the plane's own normal. -/
theorem C7_plane_ignores_delta (key : Nat) (rb : RigidBody) (w : Window)
    (delta delta2 : Iso3) (nrm : V3) (c : V3) :
    addShape key rb w delta (Shape.plane nrm) c =
      addShape key rb w delta2 (Shape.plane nrm) c ∧
    addShape key rb w delta (Shape.plane nrm) c =
      some (w.addObject.1,
        [Node.plane key rb.position.translation
          (rb.position.rotation.mulVec nrm) c w.addObject.2]) :=
  ⟨rfl, rfl⟩

/-- Claim C8: a non-movable body added with no explicit color and no cached
color resolves to gray (1/2, 1/2, 1/2), and every stored node carries that
color. -/
theorem C8_static_gray (gm : GraphicsManager) (w : Window) (body : BodyHandle)
    (gm1 : GraphicsManager) (w1 : Window)
    (hc : alGet body.key gm.rb2color = none)
    (hm : body.rb.canMove = false)
    (h : gm.add w body = some (gm1, w1)) :
    ∃ ns, gm1.body_to_scene_node body.key = some ns ∧
      ∀ n ∈ ns, n.color = ⟨1/2, 1/2, 1/2⟩ :=
  add_static_gray gm w body gm1 w1 hc hm h

/-- Concrete evaluation of C8 on a static box body. -/
theorem C8_static_gray_witness :
    ∃ ns, (addC8.getD (gm0, w0)).1.body_to_scene_node 9 = some ns ∧
      ∀ n ∈ ns, n.color = ⟨1/2, 1/2, 1/2⟩ :=
  C8_static_gray gm0 w0 bodyC8 (addC8.getD (gm0, w0)).1
    (addC8.getD (gm0, w0)).2 rfl rfl rfl

/-- Claim C9: `remove` on a body with no registered nodes is a defined no-op:
it returns the registry (including the color cache) and the window unchanged
and raises no error. -/
theorem C9_remove_noop (gm : GraphicsManager) (w : Window) (body : BodyHandle)
    (h : alGet body.key gm.rb2sn = none) :
    gm.remove w body = (gm, w) := by
  unfold GraphicsManager.remove
  rw [h]
  dsimp only
  rw [alRemove_of_alGet_none _ _ h]

/-- Concrete evaluation of C9: removing a never-registered body changes
nothing. -/
theorem C9_remove_noop_witness : gm0.remove w0 bodyC9 = (gm0, w0) :=
  C9_remove_noop gm0 w0 bodyC9 rfl

/-- Claim C10: `add_with_color` never writes the color cache — the cache is
identical before and after — so a later plain `add` with no prior
`set_color` re-resolves the color: gray for a static body, the next draw of
the color stream for a movable one, instead of reusing the explicit color. -/
theorem C10_add_with_color_cache (gm : GraphicsManager) (w : Window)
    (body : BodyHandle) (c : V3) (gm1 : GraphicsManager) (w1 : Window)
    (h : gm.add_with_color w body c = some (gm1, w1)) :
    gm1.rb2color = gm.rb2color ∧
    (body.rb.canMove = false → alGet body.key gm.rb2color = none →
      ∀ gm2 w2, gm1.add w1 body = some (gm2, w2) →
        ∃ ns, gm2.body_to_scene_node body.key = some ns ∧
          ∀ n ∈ ns, n.color = ⟨1/2, 1/2, 1/2⟩) ∧
    (body.rb.canMove = true → alGet body.key gm.rb2color = none →
      ∀ gm2 w2, gm1.add w1 body = some (gm2, w2) →
        ∃ ns, gm2.body_to_scene_node body.key = some ns ∧
          ∀ n ∈ ns, n.color = gm1.randStream gm1.randPos) := by
  obtain ⟨ns, hs, hsn, hcol, _, _, _⟩ := add_with_color_some _ _ _ _ _ _ h
  refine ⟨hcol, ?_, ?_⟩
  · intro hm hc gm2 w2 h2
    exact add_static_gray gm1 w1 body gm2 w2 (by rw [hcol]; exact hc) hm h2
  · intro hm hc gm2 w2 h2
    exact add_movable_draw gm1 w1 body gm2 w2 (by rw [hcol]; exact hc) hm h2

/-- Concrete evaluation of C10: a blue explicit-color add leaves the cache
empty; a later plain add colors a static body gray and a movable body with
the next stream draw, not blue. -/
theorem C10_add_with_color_cache_witness :
    (addC10.getD (gm0, w0)).1.rb2color = gm0.rb2color ∧
    (∃ ns, (addC10b.getD (gm0, w0)).1.body_to_scene_node 11 = some ns ∧
      ∀ n ∈ ns, n.color = ⟨1/2, 1/2, 1/2⟩) ∧
    (∃ ns, (addC10mb.getD (gm0, w0)).1.body_to_scene_node 12 = some ns ∧
      ∀ n ∈ ns, n.color =
        (addC10m.getD (gm0, w0)).1.randStream
          ((addC10m.getD (gm0, w0)).1.randPos)) :=
  ⟨(C10_add_with_color_cache gm0 w0 bodyC10 ⟨0, 0, 1⟩
      (addC10.getD (gm0, w0)).1 (addC10.getD (gm0, w0)).2 rfl).1,
   (C10_add_with_color_cache gm0 w0 bodyC10 ⟨0, 0, 1⟩
      (addC10.getD (gm0, w0)).1 (addC10.getD (gm0, w0)).2 rfl).2.1 rfl rfl
     (addC10b.getD (gm0, w0)).1 (addC10b.getD (gm0, w0)).2 rfl,
   (C10_add_with_color_cache gm0 w0 bodyC10m ⟨0, 0, 1⟩
      (addC10m.getD (gm0, w0)).1 (addC10m.getD (gm0, w0)).2 rfl).2.2 rfl rfl
     (addC10mb.getD (gm0, w0)).1 (addC10mb.getD (gm0, w0)).2 rfl⟩
